import Mathlib

/-!
Verification development for the `ssd_pytorch` repository (files `train.py`
and `eval.py`).  The two Python source files are glue code around external
modules (`model.py`, `box_utils.py`, `label_encoder.py`, `ssd_loss.py`,
`decode_utils.py`, `data_utils.py`, `config.py`) that are not part of the
sources; those externals are either taken as parameters (`Externals`) or,
where a claim is about them, modelled from the specification and marked so
in their doc comment.  Floats are modelled by `ℚ`, the file system by a
flat directory/file listing, and Python exceptions by `Except String`.
-/

namespace SSDPyTorch

/-- Weight provenance of a model: freshly initialised by the constructor, or
overwritten from a checkpoint file by `load_state_dict`. -/
inductive Weights where
  | fresh
  | loaded
deriving DecidableEq

/-- A neural-network model object as far as `train.py` observes it: its
architecture name (which constructor built it), where its weights came from,
and its train/eval mode flag (`model.train()` / `model.eval()`). -/
structure Model where
  arch : String
  weights : Weights
  training : Bool
deriving DecidableEq

/-- A torch tensor, modelled as its shape together with its payload.  The
payload carries the values that `torch.randn` fills in. -/
structure Tensor where
  shape : List Nat
  data : List ℚ
deriving DecidableEq

/-- torch.randn: a tensor of the given shape whose payload is the ambient
random noise.  Only the shape is chosen by the caller. -/
def randn (shape : List Nat) (noise : List ℚ) : Tensor :=
  ⟨shape, noise⟩

/-- The `train_cfg` sub-configuration read by `train.py`. -/
structure TrainCfg where
  model_name : String
  checkpoint_dir : String
  checkpoint_file : String
  data_dir : String
  train_file_path : String
  eval_file_path : String
  batch_size : Nat
  alpha : ℚ
  neg_pos_ratio : Nat
  num_epochs : Nat
deriving DecidableEq

/-- The `Config` object read by `train.py`. -/
structure Config where
  img_width : Nat
  img_height : Nat
  nclasses : Nat
  scales : List ℚ
  aspect_ratios : List ℚ
  variances : List ℚ
  train_cfg : TrainCfg
deriving DecidableEq

/-- A flat model of the file system: a list of directories and a list of
(directory, filename) pairs.  The program under study only ever touches
files directly inside the checkpoint directory, so nesting of directories
is not modelled. -/
structure FS where
  dirs : List String
  files : List (String × String)
deriving DecidableEq

/-- os.path.exists + os.path.isdir for a directory. -/
def FS.dirExists (fs : FS) (d : String) : Bool :=
  decide (d ∈ fs.dirs)

/-- os.path.exists for a file inside directory `d`. -/
def FS.fileExists (fs : FS) (d f : String) : Bool :=
  decide ((d, f) ∈ fs.files)

/-- The names of the files directly inside directory `d`. -/
def FS.filesIn (fs : FS) (d : String) : List String :=
  (fs.files.filter fun p => decide (p.1 = d)).map (fun p => p.2)

/-- shutil.rmtree: remove the directory and everything inside it. -/
def FS.rmtree (fs : FS) (d : String) : FS :=
  ⟨fs.dirs.filter (fun x => decide (x ≠ d)), fs.files.filter fun p => decide (p.1 ≠ d)⟩

/-- os.makedirs with exist_ok=True. -/
def FS.makedirs (fs : FS) (d : String) : FS :=
  if fs.dirExists d then fs else ⟨d :: fs.dirs, fs.files⟩

/-- Well-formedness of a file-system snapshot: a file can only exist inside
an existing directory (true of any real file system). -/
def FS.wf (fs : FS) : Prop :=
  ∀ p ∈ fs.files, p.1 ∈ fs.dirs

instance (fs : FS) : Decidable fs.wf := by
  unfold FS.wf; infer_instance

/-- os.path.join of the checkpoint directory and checkpoint file
(train.py line 34). -/
def checkpoint_path (cfg : Config) : String :=
  cfg.train_cfg.checkpoint_dir ++ "/" ++ cfg.train_cfg.checkpoint_file

/-- The message printed when the checkpoint file exists (train.py line 36). -/
def loading_checkpoint_message (cfg : Config) : String :=
  "Loading checkpoint from: " ++ checkpoint_path cfg

/-- The message printed when the checkpoint file is absent (train.py
line 39); the exact wording of the Python format string is immaterial. -/
def missing_checkpoint_message (cfg : Config) : String :=
  "Checkpoint file " ++ checkpoint_path cfg ++ " does not exist"

/-- Lines 34-39 of train.py: look for the checkpoint file; if present, load
it into the model, else print a message and keep the fresh weights.
Returns the (possibly updated) model and the printed output. -/
def load_checkpoint (m : Model) (cfg : Config) (fs : FS) : Model × List String :=
  if fs.fileExists cfg.train_cfg.checkpoint_dir cfg.train_cfg.checkpoint_file then
    ({ m with weights := Weights.loaded }, [loading_checkpoint_message cfg])
  else
    (m, [missing_checkpoint_message cfg])

/-- Trainer.build_model (train.py lines 24-39): construct the model named by
the configuration, raising `Exception('Model name not found!')` for any
other name, then attempt to load the checkpoint. -/
def build_model (cfg : Config) (fs : FS) : Except String (Model × List String) :=
  if cfg.train_cfg.model_name = "SSDModel" then
    Except.ok (load_checkpoint ⟨"SSDModel", Weights.fresh, true⟩ cfg fs)
  else if cfg.train_cfg.model_name = "Vgg19BaseSSD" then
    Except.ok (load_checkpoint ⟨"Vgg19BaseSSD", Weights.fresh, true⟩ cfg fs)
  else
    Except.error "Model name not found!"

/-- Modelled from the spec: `model.get_predictor_shapes` (model.py is not in
src/).  The spec treats the network as a black box whose per-scale
feature-map grid sizes are a pure function of its geometry, i.e. of the
architecture and the input spatial dimensions only; we fix one documented
convention (six scales, successive halvings of the input grid). -/
def predictor_shapes_of (arch : String) (shape : List Nat) : List (Nat × Nat) :=
  match arch, shape with
  | _, [_, _, h, w] => (List.range 6).map fun s => (h / 2 ^ (s + 3), w / 2 ^ (s + 3))
  | _, _ => []

/-- model.get_predictor_shapes(x) as called in parse_config: the shapes are
derived from the model and the shape of the probe tensor; the random
payload of the probe is never read. -/
def get_predictor_shapes (m : Model) (x : Tensor) : List (Nat × Nat) :=
  predictor_shapes_of m.arch x.shape

/-- An anchor box, see spec section 3. -/
structure AnchorBox where
  cx : ℚ
  cy : ℚ
  w : ℚ
  h : ℚ
deriving DecidableEq

/-- Modelled from the spec: `BoxUtils.generate_anchor_boxes_model`
(box_utils.py is not in src/).  Spec section 4.1: one anchor per
(grid cell, aspect ratio) pair at each scale, centred at the cell centre,
`w = scale * sqrt(ratio)`, `h = scale / sqrt(ratio)` in normalised
coordinates, concatenated scale-major, then row-major, then in
aspect-ratio order.  `Rat.sqrt` stands in for the floating-point root. -/
def generate_anchor_boxes_model (shapes : List (Nat × Nat))
    (scales aspect_ratios : List ℚ) : List AnchorBox :=
  (shapes.zip scales).flatMap fun sc =>
    (List.range sc.1.1).flatMap fun i =>
      (List.range sc.1.2).flatMap fun j =>
        aspect_ratios.map fun r =>
          { cx := ((j : ℚ) + 1 / 2) / (sc.1.2 : ℚ)
            cy := ((i : ℚ) + 1 / 2) / (sc.1.1 : ℚ)
            w := sc.2 * Rat.sqrt r
            h := sc.2 / Rat.sqrt r }

/-- The anchor list produced during parse_config (train.py lines 79-81):
a probe tensor of shape (1, 3, img_height, img_width) filled with random
noise is pushed through the model to obtain the predictor shapes, and the
anchors are generated from those shapes. -/
def trainer_anchor_boxes (arch : String) (cfg : Config) (noise : List ℚ) : List AnchorBox :=
  generate_anchor_boxes_model
    (get_predictor_shapes ⟨arch, Weights.fresh, true⟩
      (randn [1, 3, cfg.img_height, cfg.img_width] noise))
    cfg.scales cfg.aspect_ratios

/-- The SSDLoss object built in parse_config (train.py line 78). -/
structure Criterion where
  alpha : ℚ
  neg_pos_ratio : Nat
deriving DecidableEq

/-- The SSDLabelEncoder object built in parse_config (train.py lines 82-84):
it owns the anchor list and the variance vector. -/
structure LabelEncoder where
  anchor_boxes : List AnchorBox
  nclasses : Nat
  img_height : Nat
  img_width : Nat
  variance : List ℚ
deriving DecidableEq

/-- Raw network output for a batch. -/
abbrev RawPred := List ℚ

/-- The encoded per-anchor training targets produced by the label encoder. -/
abbrev EncodedLabels := List ℚ

/-- Optimizer state (torch.optim.Adam). -/
abbrev Optimizer := List ℚ

/-- One ground-truth object of a sample. -/
abbrev Obj := List ℚ

/-- One batch yielded by a data loader. -/
structure Batch where
  images : Tensor
  objs : List Obj
  filenames : List String
deriving DecidableEq

/-- The external modules train.py calls into but whose code is not in src/:
the network forward pass, the SSD loss, the label encoder's encoding, the
backward/optimizer step, and the Adam constructor.  train.py is verified
for every possible behaviour of these externals. -/
structure Externals where
  forward : Model → Tensor → RawPred
  ssd_loss : Criterion → RawPred → EncodedLabels → ℚ
  encode : LabelEncoder → List Obj → EncodedLabels
  backward_step : Model → Optimizer → ℚ → Model × Optimizer
  adam : Model → Optimizer

/-- The attributes a fully constructed Trainer object holds.  Note there is
no field holding encoded targets: encodings live only in the loop-local
variable `labels` of the epoch methods. -/
structure TrainerState where
  cfg : Config
  model : Model
  criterion : Criterion
  label_encoder : LabelEncoder
  optimizer : Optimizer
  train_loader : List Batch
  eval_loader : List Batch

/-- Result of constructing a Trainer: its state, the file system after the
construction, and the printed output. -/
structure InitResult where
  state : TrainerState
  fs : FS
  log : List String

/-- Trainer.__init__ = prepare_data ; parse_config (train.py lines 19-22,
42-88).  prepare_data builds the two data loaders (the datasets themselves
are external inputs `tl`, `el`) and prints a message; parse_config builds
the model (which can raise), the criterion, the anchor boxes, the label
encoder and the optimizer, then deletes and recreates the checkpoint
directory. -/
def trainerInit (ext : Externals) (cfg : Config) (tl el : List Batch)
    (fs : FS) (noise : List ℚ) : Except String InitResult :=
  match build_model cfg fs with
  | Except.error e => Except.error e
  | Except.ok mh =>
    let st : TrainerState :=
      { cfg := cfg
        model := mh.1
        criterion := ⟨cfg.train_cfg.alpha, cfg.train_cfg.neg_pos_ratio⟩
        label_encoder :=
          ⟨trainer_anchor_boxes mh.1.arch cfg noise,
           cfg.nclasses, cfg.img_height, cfg.img_width, cfg.variances⟩
        optimizer := ext.adam mh.1
        train_loader := tl
        eval_loader := el }
    let fs1 :=
      if fs.dirExists cfg.train_cfg.checkpoint_dir then
        fs.rmtree cfg.train_cfg.checkpoint_dir
      else fs
    Except.ok ⟨st, fs1.makedirs cfg.train_cfg.checkpoint_dir,
               "Loaded dataset" :: mh.2⟩

/-- Map the payload of a successful result; `Except.error` becomes `none`. -/
def okMap {α β γ : Type} (f : β → γ) : Except α β → Option γ
  | Except.ok b => some (f b)
  | Except.error _ => none

/-- Python division: raises ZeroDivisionError on a zero divisor. -/
def pydiv (a b : ℚ) : Except String ℚ :=
  if b = 0 then Except.error "ZeroDivisionError" else Except.ok (a / b)

/-- Result of one epoch method: the Trainer state afterwards, the returned
loss (an exception if the division at the end raised), and, as
instrumentation for stating the claims, the sequence of encoded-label
values the loop-local variable `labels` took, one per batch. -/
structure EpochResult where
  state : TrainerState
  loss : Except String ℚ
  labels_trace : List EncodedLabels

/-- The body of the training loop (train.py lines 94-104): forward pass,
fresh encoding of this batch's ground truth, loss, backward/optimizer
step.  The accumulator carries the state, the running total loss and the
trace of encodings. -/
def train_step (ext : Externals) (acc : TrainerState × ℚ × List EncodedLabels)
    (sample : Batch) : TrainerState × ℚ × List EncodedLabels :=
  let st := acc.1
  let output := ext.forward st.model sample.images
  let labels := ext.encode st.label_encoder sample.objs
  let loss := ext.ssd_loss st.criterion output labels
  let stepped := ext.backward_step st.model st.optimizer loss
  ({ st with model := stepped.1, optimizer := stepped.2 },
   acc.2.1 + loss, acc.2.2 ++ [labels])

/-- Trainer.train_on_epoch (train.py lines 91-105): set train mode, loop
over the train loader, return total_loss / len(train_loader). -/
def train_on_epoch (ext : Externals) (s : TrainerState) : EpochResult :=
  let s0 : TrainerState := { s with model := { s.model with training := true } }
  let r := s.train_loader.foldl (train_step ext) (s0, 0, [])
  ⟨r.1, pydiv r.2.1 (s.train_loader.length : ℚ), r.2.2⟩

/-- The body of the evaluation loop (train.py lines 112-118): same as the
training body but with no backward/optimizer step (torch.no_grad). -/
def eval_step (ext : Externals) (acc : TrainerState × ℚ × List EncodedLabels)
    (sample : Batch) : TrainerState × ℚ × List EncodedLabels :=
  let st := acc.1
  let output := ext.forward st.model sample.images
  let labels := ext.encode st.label_encoder sample.objs
  let loss := ext.ssd_loss st.criterion output labels
  (st, acc.2.1 + loss, acc.2.2 ++ [labels])

/-- Trainer.evaluate_on_epoch (train.py lines 108-119): set eval mode, loop
over the eval loader, return total_loss / len(eval_loader). -/
def evaluate_on_epoch (ext : Externals) (s : TrainerState) : EpochResult :=
  let s0 : TrainerState := { s with model := { s.model with training := false } }
  let r := s.eval_loader.foldl (eval_step ext) (s0, 0, [])
  ⟨r.1, pydiv r.2.1 (s.eval_loader.length : ℚ), r.2.2⟩

/-- The checkpoint file name written at the end of each epoch (train.py
line 129); `toString` of the rationals stands in for float formatting. -/
def checkpoint_name (epoch : Nat) (tl el : ℚ) : String :=
  "ssd_" ++ toString epoch ++ "_" ++ toString tl ++ "_" ++ toString el ++ ".pth"

/-- torch.save: create a file in the given directory. -/
def FS.addFile (fs : FS) (d f : String) : FS :=
  ⟨fs.dirs, (d, f) :: fs.files⟩

/-- One iteration of Trainer.run (train.py lines 125-130): train epoch,
eval epoch, save a checkpoint.  An exception from either epoch (e.g. the
ZeroDivisionError on an empty loader) propagates. -/
def epoch_body (ext : Externals) (acc : Except String (TrainerState × FS))
    (epoch : Nat) : Except String (TrainerState × FS) :=
  match acc with
  | Except.error e => Except.error e
  | Except.ok st0 =>
    let tr := train_on_epoch ext st0.1
    match tr.loss with
    | Except.error e => Except.error e
    | Except.ok tl =>
      let ev := evaluate_on_epoch ext tr.state
      match ev.loss with
      | Except.error e => Except.error e
      | Except.ok el =>
        Except.ok (ev.state,
          st0.2.addFile st0.1.cfg.train_cfg.checkpoint_dir (checkpoint_name epoch tl el))

/-- Trainer.run (train.py lines 122-130). -/
def trainer_run (ext : Externals) (s : TrainerState) (fs : FS) :
    Except String (TrainerState × FS) :=
  (List.range s.cfg.train_cfg.num_epochs).foldl (epoch_body ext) (Except.ok (s, fs))

/-!  Models of eval.py.  -/

/-- The kinds of input the spec requires the Decoder to receive
(spec section 6). -/
inductive DecoderInput where
  | rawPrediction
  | anchorList
  | varianceVector
  | confThresh
  | iouThresh
deriving DecidableEq

/-- The full list of decoder inputs required by spec section 6. -/
def spec_decoder_inputs : List DecoderInput :=
  [DecoderInput.rawPrediction, DecoderInput.anchorList, DecoderInput.varianceVector,
   DecoderInput.confThresh, DecoderInput.iouThresh]

/-- The arguments actually supplied at the single decode_output call in
Eval.run (eval.py line 37): `decode_output(y_pred, conf_thresh=...,
iou_thresh=...)` — the raw predictions (for the whole batch), the
confidence threshold and the IoU threshold, and nothing else. -/
def run_decode_call : List DecoderInput :=
  [DecoderInput.rawPrediction, DecoderInput.confThresh, DecoderInput.iouThresh]

/-- A decoded detection row as iterated over in Eval.run (eval.py line 53):
`[class_id, confidence, xmin, ymin, xmax, ymax]` in model-input
resolution. -/
structure Detection6 where
  cls : ℚ
  conf : ℚ
  xmin : ℚ
  ymin : ℚ
  xmax : ℚ
  ymax : ℚ
deriving DecidableEq

/-- numpy astype(np.int): truncation toward zero. -/
def npint (q : ℚ) : ℤ :=
  Int.tdiv q.num (q.den : ℤ)

/-- The values written to the detections text file at eval.py line 54,
before any rescaling: class id and the four coordinates as integers, the
confidence as a float. -/
structure DetFileLine where
  cls : ℤ
  conf : ℚ
  xmin : ℤ
  ymin : ℤ
  xmax : ℤ
  ymax : ℤ
deriving DecidableEq

/-- The integer corner coordinates handed to cv2.rectangle at eval.py
line 57. -/
structure DrawnRect where
  x1 : ℤ
  y1 : ℤ
  x2 : ℤ
  y2 : ℤ
deriving DecidableEq

/-- eval.py line 42: `scaley, scalex = h / img_height, w / img_width`,
where (h, w) are the original image dimensions and (img_height, img_width)
the model-input resolution. -/
def scale_factors (origH origW imgH imgW : ℚ) : ℚ × ℚ :=
  (origH / imgH, origW / imgW)

/-- eval.py lines 53-57, for one decoded detection `box`: write the
unscaled row to the detections file, then scale the four coordinates by
`[scalex, scaley, scalex, scaley]` in place, truncate to integers, and
draw that rectangle on the original image. -/
def draw_detection (box : Detection6) (scalex scaley : ℚ) : DetFileLine × DrawnRect :=
  (⟨npint box.cls, box.conf, npint box.xmin, npint box.ymin, npint box.xmax, npint box.ymax⟩,
   ⟨npint (box.xmin * scalex), npint (box.ymin * scaley),
    npint (box.xmax * scalex), npint (box.ymax * scaley)⟩)

/-- One statement of Eval.run, abstracted to the module-level names and the
self-attributes it reads, and whether executing it produces decoded
detections. -/
structure PyStmt where
  globals_read : List String
  attrs_read : List String
  yields_detection : Bool

/-- The names bound at module level in eval.py: its imports (lines 1-6)
and the class it defines.  Note that neither cv2, os, np, device,
images_dir, img_height nor img_width is among them. -/
def eval_module_globals : List String :=
  ["torch", "EvalConfig", "SSDModel", "SSDDataAugmentation", "Transpose",
   "Normalization", "collate_sample", "transforms", "decode_output", "Eval"]

/-- The attributes Eval.__init__ sets on the instance (eval.py line 11):
only `cfg`.  `model` and `eval_loader` are set only by build_model and
prepare_data, which Eval.run never calls. -/
def eval_init_attrs : List String :=
  ["cfg"]

/-- The statements of Eval.run (eval.py lines 28-61) in order of first
execution, with the non-builtin global names and self-attributes each one
reads; loop bodies are flattened behind their loop header.  The decode
call at line 37 is the first statement that produces detections. -/
def run_body : List PyStmt :=
  [⟨[], [], false⟩,                                -- 28: step = 0
   ⟨[], [], false⟩,                                -- 29: total = 0
   ⟨["cv2"], [], false⟩,                           -- 30: font = cv2.FONT_HERSHEY_SIMPLEX
   ⟨[], ["eval_loader"], false⟩,                   -- 31: for sample in self.eval_loader
   ⟨[], [], false⟩,                                -- 32: unpack sample
   ⟨["device"], [], false⟩,                        -- 33: batch_images.to(device)
   ⟨[], [], false⟩,                                -- 34: total += len(batch_images)
   ⟨[], ["model"], false⟩,                         -- 35: y_pred = self.model(batch_images)
   ⟨[], [], false⟩,                                -- 36: y_pred.cpu().data.numpy()
   ⟨["decode_output"], ["eval_cfg"], true⟩,        -- 37: decode_output(...)
   ⟨[], [], false⟩,                                -- 39: inner for with zip
   ⟨["cv2", "os", "images_dir"], [], false⟩,       -- 40: cv2.imread(os.path.join(...))
   ⟨[], [], false⟩,                                -- 41: h, w = img.shape[:2]
   ⟨["img_height", "img_width"], [], false⟩,       -- 42: scaley, scalex = ...
   ⟨["os"], ["eval_cfg"], false⟩,                  -- 44: open groundtruth file
   ⟨["np", "cv2"], [], false⟩,                     -- 45-50: groundtruth loop, f.close
   ⟨["os"], ["eval_cfg"], false⟩,                  -- 52: open detections file
   ⟨["np", "cv2"], [], false⟩,                     -- 53-59: detections loop, f.close
   ⟨["cv2", "os"], ["eval_cfg"], false⟩,           -- 60: cv2.imwrite(...)
   ⟨[], [], false⟩]                                -- 61: print total

/-- Outcome of running a statement list: completion, or the Python error
raised by the first statement reading an unbound name, together with how
many detection-producing statements executed before that point. -/
inductive RunOutcome where
  | completed (ndet : Nat)
  | nameError (n : String) (ndet : Nat)
  | attrError (n : String) (ndet : Nat)
deriving DecidableEq

/-- Execute statements in order against the given bound global names and
instance attributes: Python raises NameError at the first read of an
unbound global and AttributeError at the first read of a missing
attribute. -/
def exec_stmts (g a : List String) : List PyStmt → Nat → RunOutcome
  | [], n => RunOutcome.completed n
  | s :: rest, n =>
    match s.globals_read.find? (fun x => decide (x ∉ g)) with
    | some x => RunOutcome.nameError x n
    | none =>
      match s.attrs_read.find? (fun x => decide (x ∉ a)) with
      | some x => RunOutcome.attrError x n
      | none => exec_stmts g a rest (n + (if s.yields_detection then 1 else 0))

/-- Whether an Except value is a normal return. -/
def exceptOk : Except String ℚ → Bool
  | Except.ok _ => true
  | Except.error _ => false

/-!  Concrete fixtures used to instantiate the theorems.  -/

/-- A trivial instantiation of the external modules. -/
def ext0 : Externals :=
  ⟨fun _ _ => [], fun _ _ _ => 0, fun _ _ => [], fun m o _ => (m, o), fun _ => []⟩

/-- A small concrete train configuration. -/
def train_cfg0 : TrainCfg :=
  ⟨"SSDModel", "checkpoints", "model.pth", "data", "train.txt", "eval.txt", 8, 1, 3, 1⟩

/-- A small concrete configuration naming a valid model. -/
def cfg0 : Config :=
  ⟨8, 8, 2, [1], [1], [1 / 10, 1 / 10, 1 / 5, 1 / 5], train_cfg0⟩

/-- The same configuration with an unrecognised model name. -/
def cfg_bad : Config :=
  { cfg0 with train_cfg := { train_cfg0 with model_name := "ResNet" } }

/-- An empty file system. -/
def fs0 : FS := ⟨[], []⟩

/-- A file system already holding the configured checkpoint file. -/
def fs1 : FS := ⟨["checkpoints"], [("checkpoints", "model.pth")]⟩

/-- A freshly constructed SSDModel. -/
def model0 : Model := ⟨"SSDModel", Weights.fresh, true⟩

/-- A Trainer state whose two data loaders yield zero batches. -/
def s_empty : TrainerState :=
  ⟨cfg0, model0, ⟨1, 3⟩, ⟨[], 2, 8, 8, [1 / 10, 1 / 10, 1 / 5, 1 / 5]⟩, [], [], []⟩

/-!  Helper lemmas.  -/

lemma build_model_ok (cfg : Config) (fs : FS) (mh : Model × List String)
    (h : build_model cfg fs = Except.ok mh) :
    mh.1.arch = cfg.train_cfg.model_name ∧
    (mh.1.weights, mh.2) =
      (if fs.fileExists cfg.train_cfg.checkpoint_dir cfg.train_cfg.checkpoint_file then
        (Weights.loaded, [loading_checkpoint_message cfg])
      else
        (Weights.fresh, [missing_checkpoint_message cfg])) := by
  unfold build_model load_checkpoint at h
  split at h
  · next hname =>
    split at h <;> (injection h with h; subst h; simp [hname, *])
  · split at h
    · next hname =>
      split at h <;> (injection h with h; subst h; simp [hname, *])
    · exact absurd h (by simp)

lemma makedirs_dirExists_self (fs : FS) (d : String) :
    (fs.makedirs d).dirExists d = true := by
  unfold FS.makedirs
  split
  · assumption
  · simp [FS.dirExists]

lemma filesIn_makedirs (fs : FS) (d d' : String) :
    (fs.makedirs d').filesIn d = fs.filesIn d := by
  unfold FS.makedirs
  split
  · rfl
  · rfl

lemma filesIn_rmtree_self (fs : FS) (d : String) :
    (fs.rmtree d).filesIn d = [] := by
  unfold FS.rmtree FS.filesIn
  simp only [List.filter_filter]
  rw [List.filter_eq_nil_iff.mpr, List.map_nil]
  intro p _
  by_cases hp : p.1 = d <;> simp [hp]

lemma filesIn_of_no_dir (fs : FS) (d : String) (hwf : fs.wf)
    (h : fs.dirExists d = false) : fs.filesIn d = [] := by
  unfold FS.filesIn
  rw [List.filter_eq_nil_iff.mpr, List.map_nil]
  intro p hp
  have := hwf p hp
  simp only [FS.dirExists, decide_eq_false_iff_not] at h
  simp only [decide_eq_true_eq]
  intro hpd
  exact h (hpd ▸ this)

lemma train_fold_spec (ext : Externals) (l : List Batch) :
    ∀ (st : TrainerState) (t : ℚ) (tr : List EncodedLabels),
      ((l.foldl (train_step ext) (st, t, tr)).1.cfg = st.cfg ∧
       (l.foldl (train_step ext) (st, t, tr)).1.criterion = st.criterion ∧
       (l.foldl (train_step ext) (st, t, tr)).1.label_encoder = st.label_encoder ∧
       (l.foldl (train_step ext) (st, t, tr)).1.train_loader = st.train_loader ∧
       (l.foldl (train_step ext) (st, t, tr)).1.eval_loader = st.eval_loader) ∧
      (l.foldl (train_step ext) (st, t, tr)).2.2
        = tr ++ l.map (fun b => ext.encode st.label_encoder b.objs) := by
  induction l with
  | nil => intro st t tr; simp
  | cons b bs ih =>
    intro st t tr
    simp only [List.foldl_cons, List.map_cons]
    have h := ih (train_step ext (st, t, tr) b).1
      (train_step ext (st, t, tr) b).2.1 (train_step ext (st, t, tr) b).2.2
    simp only [train_step] at h ⊢
    refine ⟨h.1, ?_⟩
    rw [h.2]
    simp

lemma eval_fold_spec (ext : Externals) (l : List Batch) :
    ∀ (st : TrainerState) (t : ℚ) (tr : List EncodedLabels),
      (l.foldl (eval_step ext) (st, t, tr)).1 = st ∧
      (l.foldl (eval_step ext) (st, t, tr)).2.2
        = tr ++ l.map (fun b => ext.encode st.label_encoder b.objs) := by
  induction l with
  | nil => intro st t tr; simp
  | cons b bs ih =>
    intro st t tr
    simp only [List.foldl_cons, List.map_cons]
    have h := ih (eval_step ext (st, t, tr) b).1
      (eval_step ext (st, t, tr) b).2.1 (eval_step ext (st, t, tr) b).2.2
    simp only [eval_step] at h ⊢
    refine ⟨h.1, ?_⟩
    rw [h.2]
    simp

lemma train_on_epoch_frame (ext : Externals) (s : TrainerState) :
    (train_on_epoch ext s).state.cfg = s.cfg ∧
    (train_on_epoch ext s).state.criterion = s.criterion ∧
    (train_on_epoch ext s).state.label_encoder = s.label_encoder ∧
    (train_on_epoch ext s).state.train_loader = s.train_loader ∧
    (train_on_epoch ext s).state.eval_loader = s.eval_loader ∧
    (train_on_epoch ext s).labels_trace
      = s.train_loader.map (fun b => ext.encode s.label_encoder b.objs) := by
  have h := train_fold_spec ext s.train_loader
    { s with model := { s.model with training := true } } 0 []
  simp only [train_on_epoch]
  exact ⟨h.1.1, h.1.2.1, h.1.2.2.1, h.1.2.2.2.1, h.1.2.2.2.2, by simpa using h.2⟩

lemma evaluate_on_epoch_frame (ext : Externals) (s : TrainerState) :
    (evaluate_on_epoch ext s).state.cfg = s.cfg ∧
    (evaluate_on_epoch ext s).state.criterion = s.criterion ∧
    (evaluate_on_epoch ext s).state.label_encoder = s.label_encoder ∧
    (evaluate_on_epoch ext s).state.train_loader = s.train_loader ∧
    (evaluate_on_epoch ext s).state.eval_loader = s.eval_loader ∧
    (evaluate_on_epoch ext s).labels_trace
      = s.eval_loader.map (fun b => ext.encode s.label_encoder b.objs) := by
  have h := eval_fold_spec ext s.eval_loader
    { s with model := { s.model with training := false } } 0 []
  simp only [evaluate_on_epoch]
  rw [h.1]
  exact ⟨rfl, rfl, rfl, rfl, rfl, by simpa using h.2⟩

lemma pydiv_isOk (a b : ℚ) : exceptOk (pydiv a b) = !decide (b = 0) := by
  unfold pydiv
  split
  · next h => simp [exceptOk, h]
  · next h => simp [exceptOk, h]

lemma epoch_body_encoder (ext : Externals) (acc : Except String (TrainerState × FS))
    (e : Nat) (p : TrainerState × FS) (h : epoch_body ext acc e = Except.ok p) :
    ∃ q, acc = Except.ok q ∧ p.1.label_encoder = q.1.label_encoder := by
  cases acc with
  | error e' => simp [epoch_body] at h
  | ok q =>
    refine ⟨q, rfl, ?_⟩
    simp only [epoch_body] at h
    split at h
    · exact absurd h (by simp)
    · split at h
      · exact absurd h (by simp)
      · injection h with h
        subst h
        calc (evaluate_on_epoch ext (train_on_epoch ext q.1).state).state.label_encoder
            = (train_on_epoch ext q.1).state.label_encoder :=
              (evaluate_on_epoch_frame ext _).2.2.1
          _ = q.1.label_encoder := (train_on_epoch_frame ext _).2.2.1

lemma run_fold_encoder (ext : Externals) (l : List Nat) :
    ∀ (acc : Except String (TrainerState × FS)) (p : TrainerState × FS),
      l.foldl (epoch_body ext) acc = Except.ok p →
      ∃ q, acc = Except.ok q ∧ p.1.label_encoder = q.1.label_encoder := by
  induction l with
  | nil => intro acc p h; exact ⟨p, h, rfl⟩
  | cons e es ih =>
    intro acc p h
    simp only [List.foldl_cons] at h
    obtain ⟨q', hq', henc⟩ := ih (epoch_body ext acc e) p h
    obtain ⟨q, hq, henc2⟩ := epoch_body_encoder ext acc e q' hq'
    exact ⟨q, hq, by rw [henc, henc2]⟩

lemma trainer_run_encoder (ext : Externals) (s : TrainerState) (fs : FS)
    (p : TrainerState × FS) (h : trainer_run ext s fs = Except.ok p) :
    p.1.label_encoder = s.label_encoder := by
  obtain ⟨q, hq, henc⟩ :=
    run_fold_encoder ext (List.range s.cfg.train_cfg.num_epochs) (Except.ok (s, fs)) p h
  injection hq with hq
  rw [henc, ← hq]

lemma build_model_valid (cfg : Config) (fs : FS)
    (h : cfg.train_cfg.model_name = "SSDModel" ∨ cfg.train_cfg.model_name = "Vgg19BaseSSD") :
    build_model cfg fs
      = Except.ok (load_checkpoint ⟨cfg.train_cfg.model_name, Weights.fresh, true⟩ cfg fs) := by
  unfold build_model
  cases h with
  | inl h => rw [if_pos h, h]
  | inr h =>
    have hne : cfg.train_cfg.model_name ≠ "SSDModel" := by rw [h]; decide
    rw [if_neg hne, if_pos h, h]

/-!  The claims.  -/

/-- C1 counterexample: it is not the case that every decoder input the spec
requires (raw prediction, anchor list, variance vector, confidence
threshold, IoU threshold) is supplied at the decode_output call in
Eval.run; the anchor list (and the variance vector) is not passed. -/
theorem c1_counterexample :
    ¬ ∀ x ∈ spec_decoder_inputs, x ∈ run_decode_call := by
  decide

/-- C1 (amended): the single decode invocation in Eval.run supplies only
the raw predictions (for the whole batch at once rather than one image),
the confidence threshold and the IoU threshold; the anchor list and the
variance vector of the spec's decoder interface are not passed. -/
theorem c1_decode_call_arguments :
    DecoderInput.rawPrediction ∈ run_decode_call ∧
    DecoderInput.confThresh ∈ run_decode_call ∧
    DecoderInput.iouThresh ∈ run_decode_call ∧
    DecoderInput.anchorList ∉ run_decode_call ∧
    DecoderInput.varianceVector ∉ run_decode_call := by
  decide

/-- C2: constructing a Trainer whose configuration names a model other than
SSDModel or Vgg19BaseSSD raises `Exception('Model name not found!')`
during Trainer.__init__, via build_model, before any image is processed
(no Trainer state is ever produced). -/
theorem c2_bad_model_name_raises :
    ∀ (ext : Externals) (cfg : Config) (tl el : List Batch) (fs : FS) (noise : List ℚ),
      cfg.train_cfg.model_name ≠ "SSDModel" →
      cfg.train_cfg.model_name ≠ "Vgg19BaseSSD" →
      trainerInit ext cfg tl el fs noise = Except.error "Model name not found!" := by
  intro ext cfg tl el fs noise h1 h2
  simp [trainerInit, build_model, h1, h2]

/-- C2 witness: a configuration naming the model "ResNet" makes
Trainer.__init__ raise. -/
theorem c2_witness :
    cfg_bad.train_cfg.model_name ≠ "SSDModel" ∧
    cfg_bad.train_cfg.model_name ≠ "Vgg19BaseSSD" ∧
    trainerInit ext0 cfg_bad [] [] fs0 [] = Except.error "Model name not found!" :=
  ⟨by decide, by decide,
   c2_bad_model_name_raises ext0 cfg_bad [] [] fs0 [] (by decide) (by decide)⟩

/-- C3: the anchor-box list is generated exactly once, during parse_config
at construction (the constructed Trainer's label encoder holds exactly the
anchors of that one generation); train_on_epoch and evaluate_on_epoch
leave the label encoder — and hence the anchor list it owns — unchanged,
and so does Trainer.run. -/
theorem c3_anchors_generated_once :
    (∀ (ext : Externals) (cfg : Config) (tl el : List Batch) (fs : FS) (noise : List ℚ),
       okMap (fun r => r.state.label_encoder.anchor_boxes) (trainerInit ext cfg tl el fs noise)
         = okMap (fun _ => trainer_anchor_boxes cfg.train_cfg.model_name cfg noise)
             (trainerInit ext cfg tl el fs noise)) ∧
    (∀ (ext : Externals) (s : TrainerState),
       (train_on_epoch ext s).state.label_encoder = s.label_encoder) ∧
    (∀ (ext : Externals) (s : TrainerState),
       (evaluate_on_epoch ext s).state.label_encoder = s.label_encoder) ∧
    (∀ (ext : Externals) (s : TrainerState) (fs : FS),
       okMap (fun p => p.1.label_encoder) (trainer_run ext s fs)
         = okMap (fun _ => s.label_encoder) (trainer_run ext s fs)) := by
  refine ⟨?_, ?_, ?_, ?_⟩
  · intro ext cfg tl el fs noise
    cases h : build_model cfg fs with
    | error e => simp [trainerInit, h, okMap]
    | ok mh =>
      have harch := (build_model_ok cfg fs mh h).1
      simp [trainerInit, h, okMap, harch]
  · intro ext s; exact (train_on_epoch_frame ext s).2.2.1
  · intro ext s; exact (evaluate_on_epoch_frame ext s).2.2.1
  · intro ext s fs
    cases h : trainer_run ext s fs with
    | error e => simp [okMap]
    | ok p => simp [okMap, trainer_run_encoder ext s fs p h]

/-- C4: anchor generation is deterministic — the random payload of the
torch.randn probe tensor never influences the anchors, only its shape
does, so two Trainer constructions with identical configuration produce
identical anchor lists. -/
theorem c4_anchor_determinism :
    ∀ (arch : String) (cfg : Config) (n1 n2 : List ℚ),
      trainer_anchor_boxes arch cfg n1 = trainer_anchor_boxes arch cfg n2 ∧
      ∀ (ext : Externals) (tl el : List Batch) (fs : FS),
        okMap (fun r => r.state.label_encoder.anchor_boxes) (trainerInit ext cfg tl el fs n1)
          = okMap (fun r => r.state.label_encoder.anchor_boxes)
              (trainerInit ext cfg tl el fs n2) := by
  intro arch cfg n1 n2
  refine ⟨rfl, ?_⟩
  intro ext tl el fs
  cases h : build_model cfg fs with
  | error e => simp [trainerInit, h, okMap]
  | ok mh =>
    simp only [trainerInit, h, okMap]
    rfl

/-- C5 counterexample: on a Trainer whose loaders yield zero batches,
train_on_epoch and evaluate_on_epoch do not return a finite value — the
unguarded division `total_loss / len(loader)` raises ZeroDivisionError. -/
theorem c5_counterexample :
    (train_on_epoch ext0 s_empty).loss = Except.error "ZeroDivisionError" ∧
    (evaluate_on_epoch ext0 s_empty).loss = Except.error "ZeroDivisionError" := by
  constructor <;> rfl

/-- C5 (amended): the loss normalization in train_on_epoch and
evaluate_on_epoch is not guarded: each returns a finite quotient exactly
when its loader yields at least one batch, and raises ZeroDivisionError
when the loader yields zero batches. -/
theorem c5_division_unguarded :
    ∀ (ext : Externals) (s : TrainerState),
      exceptOk (train_on_epoch ext s).loss = !s.train_loader.isEmpty ∧
      exceptOk (evaluate_on_epoch ext s).loss = !s.eval_loader.isEmpty := by
  intro ext s
  constructor
  · simp only [train_on_epoch, pydiv_isOk]
    cases s.train_loader <;> simp
    positivity
  · simp only [evaluate_on_epoch, pydiv_isOk]
    cases s.eval_loader <;> simp
    positivity

/-- C6: for every decoded detection processed in Eval.run, the four box
coordinates are multiplied by the per-image scale factors — x coordinates
by original_width / img_width, y coordinates by original_height /
img_height, as computed at line 42 — before the rectangle is drawn, while
the row written to the detections file keeps the unscaled model-input
resolution coordinates. -/
theorem c6_rescale_before_draw :
    ∀ (box : Detection6) (origH origW imgH imgW : ℚ),
      (draw_detection box (scale_factors origH origW imgH imgW).2
          (scale_factors origH origW imgH imgW).1).2
        = ⟨npint (box.xmin * (origW / imgW)), npint (box.ymin * (origH / imgH)),
           npint (box.xmax * (origW / imgW)), npint (box.ymax * (origH / imgH))⟩ ∧
      (draw_detection box (scale_factors origH origW imgH imgW).2
          (scale_factors origH origW imgH imgW).1).1
        = ⟨npint box.cls, box.conf, npint box.xmin, npint box.ymin,
           npint box.xmax, npint box.ymax⟩ := by
  intro box origH origW imgH imgW
  exact ⟨rfl, rfl⟩

/-- C7: encoded targets are produced fresh for each batch — in both epoch
methods the sequence of encodings consumed equals, batch for batch, the
label encoder applied to that batch's ground-truth objects — and no
encoded-target value is stored on the Trainer: every Trainer attribute
except model and optimizer is unchanged by an epoch (and the Trainer has
no attribute holding encodings at all). -/
theorem c7_fresh_labels_per_batch :
    ∀ (ext : Externals) (s : TrainerState),
      ((train_on_epoch ext s).labels_trace
          = s.train_loader.map (fun b => ext.encode s.label_encoder b.objs) ∧
       (evaluate_on_epoch ext s).labels_trace
          = s.eval_loader.map (fun b => ext.encode s.label_encoder b.objs)) ∧
      ((train_on_epoch ext s).state.cfg = s.cfg ∧
       (train_on_epoch ext s).state.criterion = s.criterion ∧
       (train_on_epoch ext s).state.label_encoder = s.label_encoder ∧
       (train_on_epoch ext s).state.train_loader = s.train_loader ∧
       (train_on_epoch ext s).state.eval_loader = s.eval_loader) ∧
      ((evaluate_on_epoch ext s).state.cfg = s.cfg ∧
       (evaluate_on_epoch ext s).state.criterion = s.criterion ∧
       (evaluate_on_epoch ext s).state.label_encoder = s.label_encoder ∧
       (evaluate_on_epoch ext s).state.train_loader = s.train_loader ∧
       (evaluate_on_epoch ext s).state.eval_loader = s.eval_loader) := by
  intro ext s
  have ht := train_on_epoch_frame ext s
  have he := evaluate_on_epoch_frame ext s
  exact ⟨⟨ht.2.2.2.2.2, he.2.2.2.2.2⟩,
         ⟨ht.1, ht.2.1, ht.2.2.1, ht.2.2.2.1, ht.2.2.2.2.1⟩,
         he.1, he.2.1, he.2.2.1, he.2.2.2.1, he.2.2.2.2.1⟩

/-- C8: for every configuration, Eval(cfg).run() raises a Python NameError
before producing any detection: the very first name-resolving statement of
the loop preamble reads `cv2`, which eval.py never imports; moreover none
of cv2, os, np, device, images_dir, img_height, img_width is bound at
module level, and none of eval_cfg, model, eval_loader is an attribute
set by Eval.__init__. -/
theorem c8_run_fails_before_decoding :
    exec_stmts eval_module_globals eval_init_attrs run_body 0
      = RunOutcome.nameError "cv2" 0 ∧
    (["cv2", "os", "np", "device", "images_dir", "img_height", "img_width"].all
      fun n => decide (n ∉ eval_module_globals)) = true ∧
    (["eval_cfg", "model", "eval_loader"].all
      fun n => decide (n ∉ eval_init_attrs)) = true := by
  decide

/-- C9: whenever Trainer.__init__ completes on a well-formed file system,
the checkpoint directory exists and contains no files afterwards (it was
deleted wholesale by shutil.rmtree and recreated empty), while the model's
weights were loaded from the pre-existing checkpoint file beforehand when
that file existed. -/
theorem c9_init_destroys_checkpoints :
    ∀ (ext : Externals) (cfg : Config) (tl el : List Batch) (fs : FS) (noise : List ℚ),
      fs.wf →
      okMap (fun r => (r.fs.dirExists cfg.train_cfg.checkpoint_dir,
                       r.fs.filesIn cfg.train_cfg.checkpoint_dir,
                       r.state.model.weights))
          (trainerInit ext cfg tl el fs noise)
        = okMap (fun _ => (true, ([] : List String),
            if fs.fileExists cfg.train_cfg.checkpoint_dir cfg.train_cfg.checkpoint_file
            then Weights.loaded else Weights.fresh))
            (trainerInit ext cfg tl el fs noise) := by
  intro ext cfg tl el fs noise hwf
  cases h : build_model cfg fs with
  | error e => simp [trainerInit, h, okMap]
  | ok mh =>
    have hw := (build_model_ok cfg fs mh h).2
    have hweights : mh.1.weights =
        (if fs.fileExists cfg.train_cfg.checkpoint_dir cfg.train_cfg.checkpoint_file
         then Weights.loaded else Weights.fresh) := by
      split at hw
      · next hc => rw [if_pos hc]; exact congrArg Prod.fst hw
      · next hc => rw [if_neg hc]; exact congrArg Prod.fst hw
    simp only [trainerInit, h, okMap]
    refine congrArg some ?_
    simp only [Prod.mk.injEq]
    refine ⟨makedirs_dirExists_self _ _, ?_, hweights⟩
    rw [filesIn_makedirs]
    by_cases hd : fs.dirExists cfg.train_cfg.checkpoint_dir = true
    · rw [if_pos hd, filesIn_rmtree_self]
    · rw [if_neg hd, filesIn_of_no_dir fs _ hwf (Bool.of_not_eq_true hd)]

/-- C9 witness: on a file system already holding the configured checkpoint
file, Trainer.__init__ loads it and leaves the checkpoint directory
existing and empty. -/
theorem c9_witness :
    fs1.wf ∧
    okMap (fun r => (r.fs.dirExists cfg0.train_cfg.checkpoint_dir,
                     r.fs.filesIn cfg0.train_cfg.checkpoint_dir,
                     r.state.model.weights)) (trainerInit ext0 cfg0 [] [] fs1 [])
      = okMap (fun _ => (true, ([] : List String),
          if fs1.fileExists cfg0.train_cfg.checkpoint_dir cfg0.train_cfg.checkpoint_file
          then Weights.loaded else Weights.fresh)) (trainerInit ext0 cfg0 [] [] fs1 []) :=
  ⟨by decide, c9_init_destroys_checkpoints ext0 cfg0 [] [] fs1 [] (by decide)⟩

/-- C10: a missing checkpoint file is not a construction-time error — with
a recognised model name and no checkpoint file present, Trainer.__init__
completes normally, the model keeps its freshly initialised weights, and
the "checkpoint missing" message is printed. -/
theorem c10_missing_checkpoint_not_fatal :
    ∀ (ext : Externals) (cfg : Config) (tl el : List Batch) (fs : FS) (noise : List ℚ),
      (cfg.train_cfg.model_name = "SSDModel" ∨ cfg.train_cfg.model_name = "Vgg19BaseSSD") →
      fs.fileExists cfg.train_cfg.checkpoint_dir cfg.train_cfg.checkpoint_file = false →
      okMap (fun r => (r.state.model.weights,
                       decide (missing_checkpoint_message cfg ∈ r.log)))
          (trainerInit ext cfg tl el fs noise)
        = some (Weights.fresh, true) := by
  intro ext cfg tl el fs noise hname hmiss
  simp [trainerInit, build_model_valid cfg fs hname, load_checkpoint, hmiss, okMap]

/-- C10 witness: with model name "SSDModel" and an empty file system the
construction completes with fresh weights and prints the missing-file
message. -/
theorem c10_witness :
    (cfg0.train_cfg.model_name = "SSDModel" ∨ cfg0.train_cfg.model_name = "Vgg19BaseSSD") ∧
    fs0.fileExists cfg0.train_cfg.checkpoint_dir cfg0.train_cfg.checkpoint_file = false ∧
    okMap (fun r => (r.state.model.weights,
                     decide (missing_checkpoint_message cfg0 ∈ r.log)))
        (trainerInit ext0 cfg0 [] [] fs0 []) = some (Weights.fresh, true) :=
  ⟨Or.inl (by decide), by decide,
   c10_missing_checkpoint_not_fatal ext0 cfg0 [] [] fs0 [] (Or.inl (by decide)) (by decide)⟩

end SSDPyTorch
